import Mathlib

/-!
# Verification of the UPSG write-once container (`src/upsg/uobject.py`)

Shallow embedding of the `UObject` class: a write-once/read-phase data
container backed by a persisted HDF5-style file.  Python's mutable object is
modelled by explicit state passing: every operation takes a `UObject` state
and returns a pair of an `Except` result (`.error` models a raised Python
exception) and the post-call state.  The persisted file is modelled by the
`HFile` structure: its `/upsg_inf` `storage_method` attribute, the payload
group written under it, and whether the handle is currently open.
-/

namespace Upsg

/-- A scalar cell value of a table; `render` below is Python's `str()` as used
by `numpy.savetxt` with `fmt = "%s"`. -/
inductive Value
  | vInt : Int → Value
  | vStr : String → Value
  deriving DecidableEq, Repr

/-- Python `str()` rendering as applied by `numpy.savetxt` with `fmt = "%s"`. -/
def Value.render : Value → String
  | .vInt n => toString n
  | .vStr s => s

/-- A numpy structured array: named fields and one list of cell values per
row, order-significant in both fields and rows. -/
structure Table where
  names : List String
  rows : List (List Value)
  deriving DecidableEq, Repr

/-- Argument type of `from_np`: either a structured array (named dtype) or a
plain n-d array. -/
inductive NpArray
  | sa : Table → NpArray
  | nd : List (List Value) → NpArray
  deriving DecidableEq, Repr

/-- Modelled from the spec: `is_sa` lives in the repository's `utils` module,
which is not under `src/`; it tests whether an array is a structured array
(has a named dtype), i.e. is already in the canonical tabular form. -/
def is_sa : NpArray → Bool
  | .sa _ => true
  | .nd _ => false

/-- Modelled from the spec: `np_nd_to_sa` lives in the repository's `utils`
module, which is not under `src/`; it converts a plain 2-d array to the
canonical named-field form, generating field names for the columns. -/
def np_nd_to_sa (rows : List (List Value)) : Table :=
  { names := (List.range (rows.headD []).length).map (fun i => "f" ++ toString i)
    rows := rows }

/-- Modelled from the spec: `dict_to_np_sa` lives in the repository's `utils`
module, which is not under `src/`; per the spec's key-mapping codec it encodes
one record (field name → value) as a one-row structured array. -/
def dict_to_np_sa (d : List (String × Value)) : Table :=
  { names := d.map Prod.fst, rows := [d.map Prod.snd] }

/-- Modelled from the spec: `np_sa_to_dict` lives in the repository's `utils`
module, which is not under `src/`; inverse of `dict_to_np_sa`, decoding a
one-row structured array into a record of field name → value. -/
def np_sa_to_dict (t : Table) : List (String × Value) :=
  t.names.zip (t.rows.headD [])

/-- The payload group persisted inside the `.upsg` file: nothing yet, the
`/np/table` node, or the `/sql` group (connection descriptor plus table
reference). -/
inductive StoredPayload
  | nopayload : StoredPayload
  | np : Table → StoredPayload
  | sql : String → List (String × Value) → String → StoredPayload
  deriving DecidableEq, Repr

/-- The persisted `.upsg` file as seen through a `tables` handle:
the `storage_method` attribute of `/upsg_inf`, the payload group, and whether
the handle is open.  `flush`+`close` in the source are modelled by setting
`isOpen := false` (a closed pytables handle is always flushed first). -/
structure HFile where
  storage_method : String
  payload : StoredPayload
  isOpen : Bool
  deriving DecidableEq, Repr

/-- The file created by `tables.open_file(name, mode='w')` followed by
`create_group('/', 'upsg_inf')`, `set_node_attr(..., 'storage_method',
'INCOMPLETE')` and `flush()` in `UObject.__init__`. -/
def newWriteFile : HFile :=
  { storage_method := "INCOMPLETE", payload := .nopayload, isOpen := true }

/-- Enumeration (`UObjectPhase`) of UObject phases (`Write, Read = range(2)`). -/
inductive UObjectPhase
  | Write
  | Read
  deriving DecidableEq, Repr

/-- A raised Python exception: `UObjectException(msg)`,
`NotImplementedError(msg)` (empty string for a bare `NotImplementedError()`),
`TypeError`, or an I/O-level error from the `tables` library. -/
inductive UErr
  | UObjectException : String → UErr
  | NotImplementedError : String → UErr
  | TypeError : String → UErr
  | IOError : String → UErr
  deriving DecidableEq, Repr

/-- The mutable state of a `UObject` instance: `self.__phase`,
`self.__finalized`, `self.__file_name` and the file handle `self.__file`. -/
structure UObject where
  phase : UObjectPhase
  finalized : Bool
  file_name : String
  file : HFile
  deriving DecidableEq, Repr

/-- Embedding of `UObject.__init__(phase, file_name)`.  `uuid` stands for the string
`str(uuid.uuid4())` drawn in the Write branch when no name is given; `disk`
models the filesystem seen by `tables.open_file(file_name, mode='r')`
(`none` means no such file, which raises at open).  Since the `phase`
argument is typed as `UObjectPhase`, the trailing `Invalid phase provided`
branch of the source is unreachable in the embedding. -/
def UObject.init (phase : UObjectPhase) (file_name : Option String)
    (uuid : String) (disk : String → Option HFile) : Except UErr UObject :=
  match phase with
  | .Write =>
    let name := match file_name with
      | none => uuid ++ ".upsg"
      | some n => n
    .ok { phase := .Write, finalized := false, file_name := name,
          file := newWriteFile }
  | .Read =>
    match file_name with
    | none =>
      .error (.UObjectException "Specified read phase without providing file name")
    | some n =>
      match disk n with
      | none => .error (.IOError n)
      | some h =>
        .ok { phase := .Read, finalized := false, file_name := n,
              file := { h with isOpen := true } }

/-- Embedding of `UObject.write_to_read_phase(self)`: no-op when already in Read phase;
raises when not finalized; otherwise reopens the file
(`tables.open_file(self.__file_name)`, read mode), sets `phase = Read` and
resets `finalized = False`.  In a single-process run the reopened on-disk
contents are exactly what `__from` persisted, so reopening is modelled by
setting `isOpen := true` on the persisted file state. -/
def UObject.write_to_read_phase (u : UObject) : Except UErr Unit × UObject :=
  if u.phase = .Read then
    (.ok (), u)
  else if u.finalized = false then
    (.error (.UObjectException "UObject is not finalized"), u)
  else
    (.ok (), { u with file := { u.file with isOpen := true },
                      phase := .Read, finalized := false })

/-- Result of `UObject.__convert_to`: a numpy array, a dict, or (in dead code)
a generated SQL table name. -/
inductive ConvResult
  | np : Table → ConvResult
  | dict : List (String × Value) → ConvResult
  | sqlName : String → ConvResult
  deriving DecidableEq, Repr

/-- Embedding of `UObject.__convert_to(self, target_format, **kwargs)`: dispatch on the
persisted `storage_method` attribute.  Under `'np'` storage, the
`/np/table` node is read and returned as-is for `'np'`, through
`np_sa_to_dict` for `'dict'`, and the `'sql'` target raises
`NotImplementedError('Unsupported conversion')` (the code after that raise is
dead).  The entire `'sql'` storage branch raises
`NotImplementedError('Unsupported internal format')` on its first line, as
does any unrecognized storage method.  A missing `/np/table` node would be a
`tables` error. -/
def UObject.__convert_to (u : UObject) (target_format : String) :
    Except UErr ConvResult :=
  let storage_method := u.file.storage_method
  if storage_method = "np" then
    match u.file.payload with
    | .np A =>
      if target_format = "np" then .ok (.np A)
      else if target_format = "dict" then .ok (.dict (np_sa_to_dict A))
      else if target_format = "sql" then
        .error (.NotImplementedError "Unsupported conversion")
      else .error (.NotImplementedError "Unsupported conversion")
    | _ => .error (.IOError "no node /np/table")
  else if storage_method = "sql" then
    .error (.NotImplementedError "Unsupported internal format")
  else
    .error (.NotImplementedError "Unsupported internal format")

/-- Embedding of `UObject.__to(self, converter)`: book-keeping for every `to_` function.
Raises unless the phase is Read, runs the converter, and only after the
converter returns sets `finalized = True`.  Note the source checks only the
phase here: it never consults `self.__finalized`.  A converter exception
propagates, leaving the state untouched. -/
def UObject.__to {α : Type} (u : UObject) (converter : Unit → Except UErr α) :
    Except UErr α × UObject :=
  if u.phase ≠ .Read then
    (.error (.UObjectException "UObject is not in the read phase"), u)
  else
    match converter () with
    | .error e => (.error e, u)
    | .ok v => (.ok v, { u with finalized := true })

/-- Embedding of `UObject.to_np(self)`. -/
def UObject.to_np (u : UObject) : Except UErr ConvResult × UObject :=
  u.__to (fun _ => u.__convert_to "np")

/-- Embedding of `UObject.to_dict(self)`. -/
def UObject.to_dict (u : UObject) : Except UErr ConvResult × UObject :=
  u.__to (fun _ => u.__convert_to "dict")

/-- Embedding of `UObject.to_sql(self, db_url, con_params)`: the source calls
`self.__convert_to('sql', db_url, con_params)` with two extra positional
arguments, but `__convert_to(self, target_format, **kwargs)` accepts only one
positional argument, so the call itself raises a `TypeError` inside the
converter before `__convert_to`'s body runs. -/
def UObject.to_sql (u : UObject) (db_url : String)
    (con_params : List (String × Value)) : Except UErr ConvResult × UObject :=
  u.__to (fun _ =>
    .error (.TypeError "__convert_to() takes 2 positional arguments but 4 were given"))

/-- The text `numpy.savetxt(file_name, table, delimiter=',', header=header,
fmt="%s")` writes, as a list of lines: savetxt prepends its default comment
marker `'# '` to the header line, then writes one line per row with the
`%s`-rendered values joined by the delimiter. -/
def np_savetxt (table : Table) (header : String) : List String :=
  ("# " ++ header) ::
    table.rows.map (fun r => String.intercalate "," (r.map Value.render))

/-- Embedding of `UObject.to_csv(self, file_name)`: converts to `'np'`, builds the header
by joining the `'"{}"'.format(...)`-quoted field names with commas, writes
via `numpy.savetxt`, and returns the csv path.  The result models the pair
(returned path, lines written to the target file). -/
def UObject.to_csv (u : UObject) (file_name : String) :
    Except UErr (String × List String) × UObject :=
  u.__to (fun _ =>
    match u.__convert_to "np" with
    | .error e => .error e
    | .ok (.np table) =>
      let header := String.intercalate ","
        (table.names.map (fun field_name => "\"" ++ field_name ++ "\""))
      .ok (file_name, np_savetxt table header)
    | .ok _ => .error (.IOError "unexpected conversion result"))

/-- Embedding of `UObject.__from(self, converter)`: book-keeping for every `from_`
function.  Raises unless in Write phase, raises if already finalized, runs
the converter on the open file handle (the converter returns the storage
method tag and, in this embedding, the updated file contents), persists the
tag into `/upsg_inf`, flushes and closes the handle, and sets
`finalized = True`.  There is no `try/finally`: a converter exception
propagates before the flush/close/finalize lines run. -/
def UObject.__from (u : UObject)
    (converter : HFile → Except UErr (String × HFile)) :
    Except UErr Unit × UObject :=
  if u.phase ≠ .Write then
    (.error (.UObjectException "UObject is not in write phase"), u)
  else if u.finalized then
    (.error (.UObjectException "UObject is already finalized"), u)
  else
    match converter u.file with
    | .error e => (.error e, u)
    | .ok (storage_method, hf) =>
      (.ok (), { u with
        file := { hf with storage_method := storage_method, isOpen := false },
        finalized := true })

/-- Embedding of `UObject.from_csv(self, filename)`: `numpy.genfromtxt` parses the named
delimited file into a structured array (modelled by the `fs` map from file
names to their parsed contents), which the converter stores as `/np/table`
and tags `'np'`. -/
def UObject.from_csv (u : UObject) (fs : String → Table) (filename : String) :
    Except UErr Unit × UObject :=
  u.__from (fun hfile => .ok ("np", { hfile with payload := .np (fs filename) }))

/-- Embedding of `UObject.from_np(self, A)`: if `is_sa(A)` the array is stored as-is,
otherwise it is first converted by `np_nd_to_sa`; the converter stores the
result as `/np/table` and tags `'np'`. -/
def UObject.from_np (u : UObject) (A : NpArray) : Except UErr Unit × UObject :=
  u.__from (fun hfile =>
    let to_write := match A with
      | .sa t => t
      | .nd r => np_nd_to_sa r
    .ok ("np", { hfile with payload := .np to_write }))

/-- Embedding of `UObject.from_sql(self, db_url, con_params, query)`: the body's first
statement is a bare `raise NotImplementedError()`; everything after it,
including its converter and the `self.__from(converter)` call, is dead code.
The state is untouched. -/
def UObject.from_sql (u : UObject) (db_url : String)
    (con_params : List (String × Value)) (query : String) :
    Except UErr Unit × UObject :=
  (.error (.NotImplementedError ""), u)

/-- Embedding of `UObject.from_dict(self, d)`: the converter stores `dict_to_np_sa(d)` as
`/np/table` and tags `'np'`. -/
def UObject.from_dict (u : UObject) (d : List (String × Value)) :
    Except UErr Unit × UObject :=
  u.__from (fun hfile => .ok ("np", { hfile with payload := .np (dict_to_np_sa d) }))

/-! ## Helper lemmas -/

theorem String.data_append_eq (s t : String) : (s ++ t).data = s.data ++ t.data := by
  cases s
  cases t
  rfl

/-- On a Write-phase, unfinalized object, `__from` dispatches directly on the
converter's outcome. -/
theorem __from_not_finalized (u : UObject)
    (conv : HFile → Except UErr (String × HFile))
    (hp : u.phase = .Write) (hf : u.finalized = false) :
    u.__from conv =
      match conv u.file with
      | .error e => (.error e, u)
      | .ok (storage_method, hfile) =>
        (.ok (), { u with
          file := { hfile with storage_method := storage_method, isOpen := false },
          finalized := true }) := by
  simp [UObject.__from, hp, hf]

/-- When `__from` succeeds, the pre-state was Write-phase and unfinalized, the
converter succeeded, and the post-state is the finalized Write-phase object
with the converter's file persisted and closed. -/
theorem __from_ok_inv (u0 u1 : UObject)
    (conv : HFile → Except UErr (String × HFile))
    (h : u0.__from conv = (.ok (), u1)) :
    u0.phase = .Write ∧ u0.finalized = false ∧
      ∃ sm hfile, conv u0.file = .ok (sm, hfile) ∧
        u1 = { u0 with
          file := { hfile with storage_method := sm, isOpen := false },
          finalized := true } := by
  unfold UObject.__from at h
  split at h
  · exact absurd (congrArg Prod.fst h) (by simp)
  · next hp =>
    rw [not_not] at hp
    split at h
    · exact absurd (congrArg Prod.fst h) (by simp)
    · next hf =>
      refine ⟨hp, by simpa using hf, ?_⟩
      split at h
      · exact absurd (congrArg Prod.fst h) (by simp)
      · next sm hfile hconv =>
        exact ⟨sm, hfile, hconv, ((Prod.mk.injEq _ _ _ _).mp h).2.symm⟩

/-! ## The claims -/

/-- C1: after one `from_*` operation has completed successfully on a
Write-phase instance, any second `from_*` call (each of `from_np`,
`from_csv`, `from_dict` goes through `__from` with its own converter) fails
with the `AlreadyFinalized` error (`UObjectException 'UObject is already
finalized'`) and returns with the state — in particular the persisted payload
and the `storage_method` tag — unchanged. -/
theorem second_from_call_raises_already_finalized (u0 u1 : UObject)
    (conv0 conv1 : HFile → Except UErr (String × HFile))
    (h : u0.__from conv0 = (.ok (), u1)) :
    u1.__from conv1 =
      (.error (.UObjectException "UObject is already finalized"), u1) := by
  obtain ⟨hp, _, sm, hfile, _, hu1⟩ := __from_ok_inv u0 u1 conv0 h
  have hp1 : u1.phase = .Write := by rw [hu1]; exact hp
  have hf1 : u1.finalized = true := by rw [hu1]
  simp [UObject.__from, hp1, hf1]

/-- Concrete objects used by witnesses: a two-column table, a fresh
Write-phase container, and the `from_np`/`from_dict` converters at work. -/
def wTable : Table :=
  { names := ["a", "b"], rows := [[.vInt 1, .vStr "x"], [.vInt 2, .vStr "y"]] }

def wWrite : UObject :=
  { phase := .Write, finalized := false, file_name := "w.upsg",
    file := newWriteFile }

def wConvNp : HFile → Except UErr (String × HFile) :=
  fun hfile => .ok ("np", { hfile with payload := .np wTable })

def wFinal : UObject := (wWrite.__from wConvNp).2

theorem second_from_call_raises_already_finalized_witness :
    wFinal.__from wConvNp =
      (.error (.UObjectException "UObject is already finalized"), wFinal) :=
  second_from_call_raises_already_finalized wWrite wFinal wConvNp wConvNp rfl

/-- C3: on a Write-phase container on which no `from_*` has succeeded
(`finalized = false`), `write_to_read_phase` raises the `NotFinalized` error
(`UObjectException 'UObject is not finalized'`) and returns with the state —
in particular the phase, which stays Write — unchanged. -/
theorem transition_before_finalize_raises_not_finalized (u : UObject)
    (hp : u.phase = .Write) (hf : u.finalized = false) :
    u.write_to_read_phase =
      (.error (.UObjectException "UObject is not finalized"), u) := by
  simp [UObject.write_to_read_phase, hp, hf]

theorem transition_before_finalize_raises_not_finalized_witness :
    wWrite.write_to_read_phase =
      (.error (.UObjectException "UObject is not finalized"), wWrite) :=
  transition_before_finalize_raises_not_finalized wWrite rfl rfl

/-- C8: `write_to_read_phase` on a container already in Read phase is an
idempotent no-op: it returns successfully with the state — phase, finalized
flag, identity, file — unchanged. -/
theorem transition_on_read_phase_is_noop (u : UObject) (hp : u.phase = .Read) :
    u.write_to_read_phase = (.ok (), u) := by
  simp [UObject.write_to_read_phase, hp]

/-- A concrete Read-phase container holding the witness table under the
`'np'` storage method, as produced by a write followed by the phase
transition. -/
def wRead : UObject := (wFinal.write_to_read_phase).2

theorem transition_on_read_phase_is_noop_witness :
    wRead.write_to_read_phase = (.ok (), wRead) :=
  transition_on_read_phase_is_noop wRead rfl

/-- C9: if the converter invoked inside a `to_*` call raises, `__to`
propagates the error and leaves the state untouched: the finalized flag
stays `false` and the phase stays Read, so read-side finalization happens
only when the converter returns successfully. -/
theorem to_error_leaves_unfinalized {α : Type} (u : UObject)
    (converter : Unit → Except UErr α) (e : UErr)
    (hp : u.phase = .Read) (hf : u.finalized = false)
    (hc : converter () = .error e) :
    u.__to converter = (.error e, u) ∧
      (u.__to converter).2.finalized = false ∧
      (u.__to converter).2.phase = .Read := by
  have h : u.__to converter = (.error e, u) := by
    simp [UObject.__to, hp, hc]
  exact ⟨h, by rw [h]; exact hf, by rw [h]; exact hp⟩

def wFailDecoder : Unit → Except UErr ConvResult :=
  fun _ => .error (.IOError "decoder failure")

theorem to_error_leaves_unfinalized_witness :
    wRead.__to wFailDecoder = (.error (.IOError "decoder failure"), wRead) ∧
      (wRead.__to wFailDecoder).2.finalized = false ∧
      (wRead.__to wFailDecoder).2.phase = .Read :=
  to_error_leaves_unfinalized wRead wFailDecoder (.IOError "decoder failure")
    rfl rfl rfl

/-- C10: a container constructed in Write phase without an explicit file
name gets the system-generated identity `str(uuid.uuid4()) + '.upsg'`, which
is non-empty and ends with the suffix `.upsg`. -/
theorem generated_file_name_ends_with_upsg (uuid : String)
    (disk : String → Option HFile) (u : UObject)
    (h : UObject.init .Write none uuid disk = .ok u) :
    u.file_name ≠ "" ∧ ∃ p, u.file_name = p ++ ".upsg" := by
  have hu : u = ⟨.Write, false, uuid ++ ".upsg", newWriteFile⟩ := by
    simpa [UObject.init] using h.symm
  rw [hu]
  refine ⟨fun hemp => ?_, uuid, rfl⟩
  have hdata := congrArg String.data hemp
  rw [String.data_append_eq] at hdata
  have : (".upsg" : String).data = [] := (List.append_eq_nil.mp hdata).2
  simp [String.data] at this

theorem generated_file_name_ends_with_upsg_witness :
    ("364a721a-4e84-4b2c-9acf-68e3b8f6dc9a.upsg" : String) ≠ "" ∧
      ∃ p, ("364a721a-4e84-4b2c-9acf-68e3b8f6dc9a.upsg" : String) = p ++ ".upsg" :=
  generated_file_name_ends_with_upsg "364a721a-4e84-4b2c-9acf-68e3b8f6dc9a"
    (fun _ => none)
    ⟨.Write, false, "364a721a-4e84-4b2c-9acf-68e3b8f6dc9a.upsg", newWriteFile⟩ rfl

/-- C2: writing a structured-array payload `P` with `from_np` into a freshly
constructed Write-phase container, transitioning it with
`write_to_read_phase`, and then calling `to_np` succeeds at every step and
returns exactly `P` — same rows, same fields, same order. -/
theorem from_np_to_np_roundtrip (P : Table) (fn : Option String)
    (uuid : String) (disk : String → Option HFile) (u0 : UObject)
    (h0 : UObject.init .Write fn uuid disk = .ok u0) :
    (u0.from_np (.sa P)).1 = .ok () ∧
      ((u0.from_np (.sa P)).2.write_to_read_phase).1 = .ok () ∧
      ((((u0.from_np (.sa P)).2.write_to_read_phase).2).to_np).1 =
        .ok (.np P) := by
  cases fn <;>
    · simp only [UObject.init, Except.ok.injEq] at h0
      subst h0
      exact ⟨rfl, rfl, rfl⟩

theorem from_np_to_np_roundtrip_witness :
    (wWrite.from_np (.sa wTable)).1 = .ok () ∧
      ((wWrite.from_np (.sa wTable)).2.write_to_read_phase).1 = .ok () ∧
      ((((wWrite.from_np (.sa wTable)).2.write_to_read_phase).2).to_np).1 =
        .ok (.np wTable) :=
  from_np_to_np_roundtrip wTable (some "w.upsg") "w" (fun _ => none) wWrite rfl

/-- C5: every operation reaching the relational (SQL) storage path fails and
never returns partial data: `from_sql` raises its bare `NotImplementedError`
on its first line with the state untouched, and materialization
(`__convert_to`, for any target format) of a container whose persisted
`storage_method` is the relational tag `'sql'` raises
`NotImplementedError('Unsupported internal format')`. -/
theorem relational_storage_paths_fail (u : UObject) (db_url : String)
    (con_params : List (String × Value)) (query target : String)
    (hS : u.file.storage_method = "sql") :
    u.from_sql db_url con_params query = (.error (.NotImplementedError ""), u) ∧
      u.__convert_to target =
        .error (.NotImplementedError "Unsupported internal format") := by
  refine ⟨rfl, ?_⟩
  simp [UObject.__convert_to, hS]

/-- A Read-phase container whose persisted `storage_method` is `'sql'`, as
the dead converter of `from_sql` would have produced it. -/
def wSqlRead : UObject :=
  { phase := .Read, finalized := false, file_name := "s.upsg",
    file := { storage_method := "sql",
              payload := .sql "postgres://h/db" [("user", .vStr "u")] "tbl",
              isOpen := true } }

theorem relational_storage_paths_fail_witness :
    wSqlRead.from_sql "postgres://h/db" [("user", .vStr "u")] "SELECT 1" =
        (.error (.NotImplementedError ""), wSqlRead) ∧
      wSqlRead.__convert_to "np" =
        .error (.NotImplementedError "Unsupported internal format") :=
  relational_storage_paths_fail wSqlRead "postgres://h/db"
    [("user", .vStr "u")] "SELECT 1" "np" rfl

/-- C4 counterexample: a Read-phase instance on which one `to_np` has already
completed successfully accepts a second `to_np` call: the second call
returns the data again with `.ok` — it does not fail with the
`AlreadyFinalized` error (`__to` checks only the phase, never the finalized
flag).  `wRead` is the reachable state write → transition. -/
theorem second_to_call_succeeds_counterexample :
    (wRead.to_np).1 = .ok (.np wTable) ∧
      ((wRead.to_np).2).finalized = true ∧
      ((wRead.to_np).2).phase = .Read ∧
      (((wRead.to_np).2).to_np).1 = .ok (.np wTable) ∧
      (((wRead.to_np).2).to_np).2 = (wRead.to_np).2 :=
  ⟨rfl, rfl, rfl, rfl, rfl⟩

/-- C4 amended: a second `to_*` call on a Read-phase instance whose first
`to_*` completed successfully does not fail: `__to` consults only the phase,
so the call succeeds again, returns the same data, and leaves the state
(finalized stays `true`) unchanged. -/
theorem second_to_call_succeeds (u : UObject) (T : Table)
    (hp : u.phase = .Read) (hf : u.finalized = true)
    (hs : u.file.storage_method = "np") (hpay : u.file.payload = .np T) :
    u.to_np = (.ok (.np T), u) := by
  have heta : (⟨.Read, true, u.file_name, u.file⟩ : UObject) = u := by
    cases u
    simp_all
  simp [UObject.to_np, UObject.__to, UObject.__convert_to, hp, hs, hpay, heta]

theorem second_to_call_succeeds_witness :
    ((wRead.to_np).2).to_np = (.ok (.np wTable), (wRead.to_np).2) :=
  second_to_call_succeeds ((wRead.to_np).2) wTable rfl rfl rfl rfl

/-- C6 counterexample: for the canonical payload with fields `a`,`b` and rows
`(1,x),(2,y)`, the first line `to_csv` writes is not the bare quoted field
names: `numpy.savetxt` prepends its default comment marker, so the file
starts with `# "a","b"`, not `"a","b"`. -/
theorem to_csv_header_counterexample :
    (wRead.to_csv "out.csv").1 =
        .ok ("out.csv", ["# \"a\",\"b\"", "1,x", "2,y"]) ∧
      ("# \"a\",\"b\"" : String) ≠ "\"a\",\"b\"" :=
  ⟨rfl, by decide⟩

/-- C6 amended: for every Read-phase container holding a canonical tabular
payload, `to_csv` writes to the target path a first line consisting of
`numpy.savetxt`'s comment marker `# ` followed by the comma-joined quoted
field names, then one line per row with comma-separated rendered values, and
returns the target path. -/
theorem to_csv_writes_commented_header (u : UObject) (T : Table)
    (tgt : String) (hp : u.phase = .Read)
    (hs : u.file.storage_method = "np") (hpay : u.file.payload = .np T) :
    (u.to_csv tgt).1 =
      .ok (tgt,
        ("# " ++ String.intercalate ","
            (T.names.map (fun n => "\"" ++ n ++ "\""))) ::
          T.rows.map (fun r => String.intercalate "," (r.map Value.render))) := by
  simp [UObject.to_csv, UObject.__to, UObject.__convert_to, np_savetxt,
    hp, hs, hpay]

theorem to_csv_writes_commented_header_witness :
    (wRead.to_csv "out.csv").1 =
      .ok ("out.csv",
        ("# " ++ String.intercalate ","
            (wTable.names.map (fun n => "\"" ++ n ++ "\""))) ::
          wTable.rows.map
            (fun r => String.intercalate "," (r.map Value.render))) :=
  to_csv_writes_commented_header wRead wTable "out.csv" rfl rfl rfl

/-- The converter of a failing `from_*` write: it raises. -/
def wFailEncoder : HFile → Except UErr (String × HFile) :=
  fun _ => .error (.IOError "encoder failure")

/-- C7 counterexample: on the exit path of `__from` where the supplied
converter raises, the persisted-storage handle is not flushed and closed
before control returns: the exception propagates and the file handle of the
Write-phase container is still open afterwards. -/
theorem from_error_leaves_handle_open_counterexample :
    (wWrite.__from wFailEncoder).1 = .error (.IOError "encoder failure") ∧
      (wWrite.__from wFailEncoder).2.file.isOpen = true :=
  ⟨rfl, rfl⟩

/-- C7 amended: `__from` flushes and closes the persisted-storage handle only
on its successful exit path; on every failing exit path — wrong phase,
already finalized, or the converter raising — the exception propagates with
the object unchanged, so an open handle stays open. -/
theorem from_closes_handle_only_on_success (u : UObject)
    (conv : HFile → Except UErr (String × HFile)) :
    (∀ u', u.__from conv = (.ok (), u') → u'.file.isOpen = false) ∧
      (∀ e u', u.__from conv = (.error e, u') → u' = u) := by
  constructor
  · intro u' h
    obtain ⟨_, _, sm, hfile, _, hu'⟩ := __from_ok_inv u u' conv h
    rw [hu']
  · intro e u' h
    unfold UObject.__from at h
    split at h
    · exact (congrArg Prod.snd h).symm
    · split at h
      · exact (congrArg Prod.snd h).symm
      · split at h
        · exact (congrArg Prod.snd h).symm
        · exact absurd (congrArg Prod.fst h) (by simp)

theorem from_closes_handle_only_on_success_witness :
    wFinal.file.isOpen = false ∧ (wWrite.__from wFailEncoder).2 = wWrite :=
  ⟨(from_closes_handle_only_on_success wWrite wConvNp).1 wFinal rfl,
   (from_closes_handle_only_on_success wWrite wFailEncoder).2
     (.IOError "encoder failure") (wWrite.__from wFailEncoder).2 rfl⟩

end Upsg
